import Mathlib

/-!
Verification development for the bullpen-management-simulator repository.

The Python sources under `src/bms` and `src/api` are embedded shallowly:
pandas column operations (all elementwise) become per-row Lean functions,
floats become rationals, fallible code returns `Except`.  The module
`bms/recommender.py` (class `BullpenRecommender`) is imported by
`src/api/main.py` and `src/bms/__init__.py` but is not present in the
repository snapshot; the definitions for it below are modelled from the
design document and are marked as such in their doc comments.
-/

namespace BMS

/-! ## src/bms/features.py -/

/-- The eight canonical base-occupancy codes (keys of `RUNNER_MAP`,
also the `Runners` Literal of src/bms/domain.py and src/api/schemas.py). -/
def CANONICAL_RUNNERS : List String :=
  ["---", "1--", "-2-", "--3", "12-", "1-3", "-23", "123"]

/-- `RUNNER_MAP` of src/bms/features.py lines 18-27: partial map from a
base/out code to the number of runners on base (`none` = key absent). -/
def RUNNER_MAP (s : String) : Option Int :=
  if s = "---" then some 0
  else if s = "1--" then some 1
  else if s = "-2-" then some 1
  else if s = "--3" then some 1
  else if s = "12-" then some 2
  else if s = "1-3" then some 2
  else if s = "-23" then some 2
  else if s = "123" then some 3
  else none

/-- `df["runners"].map(RUNNER_MAP).fillna(0)` (features.py line 56):
unmapped codes become 0. -/
def runnersOn (s : String) : Int :=
  (RUNNER_MAP s).getD 0

/-- One row of the event DataFrame consumed by `feature_df_from_events`
(its required columns, features.py lines 33-44, except `platoon`, whose
column may be absent from the table and is therefore kept table-level). -/
structure EventRow where
  outs : Int
  runners : String
  inning : Int
  score_diff : Int
  rest_days : Int
  pitches_last_outing : Int
  home : Int
  park_id : Int
  batter_segment : Int
  deriving Repr, DecidableEq

/-- One row of the feature matrix produced by `feature_df_from_events`
(features.py lines 52-81), fields in column order. -/
structure FeatureRow where
  outs : Int
  runners_on : Int
  inning : Int
  close_game : Int
  late_inning : Int
  platoon : Int
  rest_days : Int
  fatigued : Int
  home : Int
  park_id : Int
  batter_segment : Int
  leverage_proxy : ℚ
  deriving Repr, DecidableEq

/-- The elementwise feature derivation of `feature_df_from_events`
(features.py lines 52-80) applied to a single row; `platoon` is the value
of the platoon column at this row.  `clip(a, b)` is `min (max x a) b`,
`astype(int)` of a boolean is the 0/1 indicator. -/
def featureRow (r : EventRow) (platoon : Int) : FeatureRow :=
  let outs := min (max r.outs 0) 2
  let runners_on := runnersOn r.runners
  let close_game : Int := if |r.score_diff| ≤ 1 then 1 else 0
  let late_inning : Int := if r.inning ≥ 7 then 1 else 0
  let rest_days := min (max r.rest_days 0) 5
  let fatigued : Int := if r.pitches_last_outing > 20 then 1 else 0
  { outs := outs
    runners_on := runners_on
    inning := r.inning
    close_game := close_game
    late_inning := late_inning
    platoon := platoon
    rest_days := rest_days
    fatigued := fatigued
    home := r.home
    park_id := r.park_id
    batter_segment := r.batter_segment
    leverage_proxy :=
      (late_inning : ℚ) * 0.7 + (close_game : ℚ) * 0.6
        + (if runners_on ≥ 2 then (1 : ℚ) else 0) * 0.5 }

/-- An event table: the required columns row-wise, plus the `platoon`
column, which `feature_df_from_events` reads with `df.get("platoon", 0)`
and so may be absent (`none`). -/
structure EventTable where
  rows : List EventRow
  platoon : Option (List Int)
  deriving Repr

/-- `feature_df_from_events` (features.py lines 30-81) at table level.
When the platoon column is absent, `df.get("platoon", 0)` yields the plain
int `0`, on which the subsequent `.astype(int)` raises `AttributeError`;
that failure is the `Except.error` branch.  Otherwise every derivation is
elementwise, so the table result is the row map. -/
def feature_df_from_events (t : EventTable) : Except String (List FeatureRow) :=
  match t.platoon with
  | none => .error "AttributeError: int object has no attribute astype"
  | some ps => .ok (List.zipWith featureRow t.rows ps)

/-! ## src/bms/domain.py -/

/-- `GameState` dataclass (domain.py lines 20-58).  A frozen dataclass
performs no range validation on construction. -/
structure GameState where
  outs : Int
  runners : String
  inning : Int
  score_diff : Int
  home : Bool
  park_id : Int
  batter_segment : Int
  leverage_hint : Option ℚ := none
  deriving Repr, DecidableEq

/-- `Reliever` dataclass (domain.py lines 61-89). -/
structure Reliever where
  reliever_id : String
  throws : String
  rest_days : Int
  pitches_last_outing : Int
  available : Bool := true
  commentText : String := ""
  deriving Repr, DecidableEq

/-! ## src/bms/model_expected_runs.py -/

/-- Error outcomes of the embedded Python code, distinguished by the kind
of exception the source raises. -/
inductive PyError where
  /-- A failed `assert` statement with its message. -/
  | assertionError (msg : String)
  /-- `EmptyRosterError` of the design document. -/
  | emptyRoster
  /-- `ModelNotReadyError` of the design document. -/
  | modelNotReady
  /-- Pydantic request validation failure (src/api/schemas.py). -/
  | validationError
  deriving Repr, DecidableEq

/-- `ExpectedRunsModel` (model_expected_runs.py lines 37-106): `pipe` is
`None` until `fit` or `load` installs a trained pipeline; a trained
pipeline is abstracted as a deterministic function from a feature row to
predicted expected runs. -/
structure ExpectedRunsModel where
  pipe : Option (FeatureRow → ℚ) := none

/-- `ExpectedRunsModel.predict` (model_expected_runs.py lines 83-92):
`assert self.pipe is not None, "Model has not been trained or loaded"`,
then apply the pipeline. -/
def ExpectedRunsModel.predict (m : ExpectedRunsModel) (x : FeatureRow) :
    Except PyError ℚ :=
  match m.pipe with
  | none => .error (.assertionError "Model has not been trained or loaded")
  | some f => .ok (f x)

/-! ## src/api/schemas.py -/

/-- Raw (unvalidated) payload for `GameStateIn`. -/
structure GameStateRaw where
  outs : Int
  runners : String
  inning : Int
  score_diff : Int
  home : Bool
  park_id : Int
  batter_segment : Int
  deriving Repr, DecidableEq

/-- Raw (unvalidated) payload for `RelieverIn`. -/
structure RelieverRaw where
  reliever_id : String
  throws : String
  rest_days : Int
  pitches_last_outing : Int
  available : Bool := true
  deriving Repr, DecidableEq

/-- Pydantic validation of `GameStateIn` (schemas.py lines 12-21):
`outs ∈ [0,2]`, `runners` a `Runners` literal, `inning ∈ [1,12]`,
`park_id ≥ 0`, `batter_segment ∈ [1,3]`; `score_diff` and `home` are
unconstrained. -/
def GameStateIn.validate (g : GameStateRaw) : Bool :=
  0 ≤ g.outs && g.outs ≤ 2
    && CANONICAL_RUNNERS.contains g.runners
    && 1 ≤ g.inning && g.inning ≤ 12
    && 0 ≤ g.park_id
    && 1 ≤ g.batter_segment && g.batter_segment ≤ 3

/-- Pydantic validation of `RelieverIn` (schemas.py lines 24-32):
`throws ∈ {R, L}`, `rest_days ∈ [0,5]`, `pitches_last_outing ∈ [0,60]`. -/
def RelieverIn.validate (r : RelieverRaw) : Bool :=
  (r.throws = "R" || r.throws = "L")
    && 0 ≤ r.rest_days && r.rest_days ≤ 5
    && 0 ≤ r.pitches_last_outing && r.pitches_last_outing ≤ 60

/-- Pydantic validation of `RecommendIn` (schemas.py lines 35-39): the
state and every bullpen entry validate; the bullpen list itself has no
minimum-length constraint. -/
def RecommendIn.validate (state : GameStateRaw) (bullpen : List RelieverRaw) :
    Bool :=
  GameStateIn.validate state && bullpen.all RelieverIn.validate

/-! ## bms/recommender.py — modelled from the spec

`src/api/main.py` line 16 and `src/bms/__init__.py` line 13 import
`BullpenRecommender` from `bms.recommender`, but that module is not
present in the repository snapshot.  The definitions in this section are
modelled from the design document (§3, §4.1, §4.3, §4.4). -/

/-- Modelled from the spec: the per-(situation, candidate) event row the
missing `bms/recommender.py` feeds to the shared feature derivation
(§4.1: the batch entry point "is the same pure function applied
row-wise"). -/
def rowOf (s : GameState) (c : Reliever) : EventRow :=
  { outs := s.outs
    runners := s.runners
    inning := s.inning
    score_diff := s.score_diff
    rest_days := c.rest_days
    pitches_last_outing := c.pitches_last_outing
    home := if s.home then 1 else 0
    park_id := s.park_id
    batter_segment := s.batter_segment }

/-- Modelled from the spec: the serving-side feature encoding of the
missing `bms/recommender.py`.  It applies the row-wise derivation of
`feature_df_from_events` (§4.1 train/serve parity), with the platoon
indicator supplied by the external lookup policy `platoonOf`
(§3: "advantage rule is an external lookup policy, not derived here")
and with `situation.leverage_hint` overriding the computed leverage
proxy when present (§3). -/
def encode (platoonOf : String → Int → Int) (s : GameState) (c : Reliever) :
    FeatureRow :=
  let base := featureRow (rowOf s c) (platoonOf c.throws s.batter_segment)
  match s.leverage_hint with
  | some h => { base with leverage_proxy := h }
  | none => base

/-- Modelled from the spec: the additive penalty applied to every
unavailable candidate (domain.py: "the recommender applies a huge
penalty to avoid selection"; §4.3 rule 1). -/
def LARGE_PENALTY : ℚ := 1000

/-- Modelled from the spec: the overuse pitch-count threshold of §4.3
rule 2 (§9 fixes `rest_days == 0 and pitches_last_outing > threshold`;
the repository's fatigue threshold 20 is used). -/
def OVERUSE_THRESHOLD : Int := 20

/-- Modelled from the spec: the additive overuse penalty of §4.3 rule 2. -/
def OVERUSE_PENALTY : ℚ := 1/2

/-- Modelled from the spec: §4.3 rule 2 trigger,
`rest_days == 0 and pitches_last_outing > threshold`. -/
def overusedRule (c : Reliever) : Bool :=
  c.rest_days = 0 && c.pitches_last_outing > OVERUSE_THRESHOLD

/-- Modelled from the spec: the PenaltyPolicy of §4.3,
`apply(raw_score, candidate) -> (penalized_score, reasons)`.  Rules are
evaluated in order, each additive, and penalties accumulate. -/
def applyPenalty (raw : ℚ) (c : Reliever) : ℚ × List String :=
  let p₁ : ℚ := if c.available then raw else raw + LARGE_PENALTY
  let r₁ : List String := if c.available then [] else ["unavailable"]
  if overusedRule c then (p₁ + OVERUSE_PENALTY, r₁ ++ ["overused"])
  else (p₁, r₁)

/-- `ScoredCandidate` of the design document §3: identifier, raw
expected-runs score, penalized score, reason tags (field names follow
`CandidateOut` of src/api/schemas.py where they exist there);
`rest_days` is carried for the tie-break. -/
structure ScoredCandidate where
  reliever_id : String
  rest_days : Int
  expected_runs : ℚ
  expected_runs_penalised : ℚ
  reasons : List String
  deriving Repr, DecidableEq, Inhabited

/-- Modelled from the spec: the ranking order of §4.4 step 3 —
ascending penalized score; on equal penalized score prefer more
`rest_days`, then the lexicographically smaller identifier. -/
def rankLe (a b : ScoredCandidate) : Prop :=
  a.expected_runs_penalised < b.expected_runs_penalised
    ∨ (a.expected_runs_penalised = b.expected_runs_penalised
        ∧ (b.rest_days < a.rest_days
            ∨ (a.rest_days = b.rest_days ∧ a.reliever_id ≤ b.reliever_id)))

instance : DecidableRel rankLe := fun a b => by
  unfold rankLe; infer_instance

instance : IsTotal ScoredCandidate rankLe :=
  ⟨by
    intro a b
    unfold rankLe
    rcases lt_trichotomy a.expected_runs_penalised b.expected_runs_penalised
      with h | h | h
    · exact Or.inl (Or.inl h)
    · rcases lt_trichotomy a.rest_days b.rest_days with h2 | h2 | h2
      · exact Or.inr (Or.inr ⟨h.symm, Or.inl h2⟩)
      · rcases le_total a.reliever_id b.reliever_id with h3 | h3
        · exact Or.inl (Or.inr ⟨h, Or.inr ⟨h2, h3⟩⟩)
        · exact Or.inr (Or.inr ⟨h.symm, Or.inr ⟨h2.symm, h3⟩⟩)
      · exact Or.inl (Or.inr ⟨h, Or.inl h2⟩)
    · exact Or.inr (Or.inl h)⟩

instance : IsTrans ScoredCandidate rankLe :=
  ⟨by
    intro a b c hab hbc
    rcases hab with h1 | ⟨e1, t1⟩
    · rcases hbc with h2 | ⟨e2, _⟩
      · exact Or.inl (h1.trans h2)
      · exact Or.inl (e2 ▸ h1)
    · rcases hbc with h2 | ⟨e2, t2⟩
      · exact Or.inl (e1.symm ▸ h2)
      · refine Or.inr ⟨e1.trans e2, ?_⟩
        rcases t1 with r1 | ⟨er1, i1⟩
        · rcases t2 with r2 | ⟨er2, _⟩
          · exact Or.inl (r2.trans r1)
          · exact Or.inl (er2 ▸ r1)
        · rcases t2 with r2 | ⟨er2, i2⟩
          · exact Or.inl (er1.symm ▸ r2)
          · exact Or.inr ⟨er1.trans er2, i1.trans i2⟩⟩

/-- `RecommendationResult` of the design document §3: the ordered
sequence of scored candidates, the selected head, the
`all_unavailable` flag of §4.4 step 4, and the situation echoed back. -/
structure RecommendationResult where
  candidates : List ScoredCandidate
  recommendation : ScoredCandidate
  all_unavailable : Bool
  state : GameState
  deriving Repr, DecidableEq

/-- Modelled from the spec: one candidate's pipeline of §4.4 step 2,
encode → score → penalize, for a ready pipeline `f`. -/
def scoreCandidate (platoonOf : String → Int → Int) (f : FeatureRow → ℚ)
    (s : GameState) (c : Reliever) : ScoredCandidate :=
  let fv := encode platoonOf s c
  let raw := f fv
  let pr := applyPenalty raw c
  { reliever_id := c.reliever_id
    rest_days := c.rest_days
    expected_runs := raw
    expected_runs_penalised := pr.1
    reasons := pr.2 }

/-- Modelled from the spec: `BullpenRecommender.recommend` of the missing
`bms/recommender.py`, instrumented with the number of Scorer invocations
it performs (second component).  §4.4: step 1 rejects an empty roster
with `EmptyRosterError` before any scoring; the Scorer readiness
short-circuit (§6 `is_ready`) fails with `ModelNotReadyError`; step 2
scores every candidate once; step 3 sorts by `rankLe`; step 4 selects
the head and sets `all_unavailable` when every candidate is
unavailable. -/
def recommendAux (platoonOf : String → Int → Int) (m : ExpectedRunsModel)
    (s : GameState) (cs : List Reliever) :
    Except PyError RecommendationResult × Nat :=
  if cs.isEmpty then (.error .emptyRoster, 0)
  else
    match m.pipe with
    | none => (.error .modelNotReady, 0)
    | some f =>
      let scored := cs.map (scoreCandidate platoonOf f s)
      let ranked := List.insertionSort rankLe scored
      (.ok { candidates := ranked
             recommendation := ranked.headD default
             all_unavailable := cs.all fun c => !c.available
             state := s },
       cs.length)

/-- Modelled from the spec: `BullpenRecommender.recommend`
(the result alone). -/
def recommend (platoonOf : String → Int → Int) (m : ExpectedRunsModel)
    (s : GameState) (cs : List Reliever) :
    Except PyError RecommendationResult :=
  (recommendAux platoonOf m s cs).1

/-! ## src/api/main.py -/

/-- The `POST /recommend` handler (main.py lines 65-74): pydantic
validates the payload against `RecommendIn` (rejecting invalid requests
before the handler body runs), then domain objects are built from the
validated payload and the recommender is invoked. -/
def handleRecommend (platoonOf : String → Int → Int) (m : ExpectedRunsModel)
    (state : GameStateRaw) (bullpen : List RelieverRaw) :
    Except PyError RecommendationResult :=
  if RecommendIn.validate state bullpen then
    let s : GameState :=
      { outs := state.outs, runners := state.runners, inning := state.inning
        score_diff := state.score_diff, home := state.home
        park_id := state.park_id, batter_segment := state.batter_segment }
    let cs : List Reliever := bullpen.map fun r =>
      { reliever_id := r.reliever_id, throws := r.throws
        rest_days := r.rest_days
        pitches_last_outing := r.pitches_last_outing
        available := r.available }
    recommend platoonOf m s cs
  else .error .validationError

/-! ## Concrete fixtures (used by witnesses and counterexamples) -/

/-- The concrete scenario situation of spec §8. -/
def exState : GameState :=
  { outs := 1, runners := "-2-", inning := 8, score_diff := 1, home := true
    park_id := 3, batter_segment := 2 }

/-- The §8 situation with a leverage hint supplied. -/
def exStateHint : GameState :=
  { exState with leverage_hint := some (5/2) }

/-- Candidate A of the §8 concrete scenario. -/
def relA : Reliever :=
  { reliever_id := "A", throws := "R", rest_days := 0, pitches_last_outing := 25 }

/-- Candidate B of the §8 concrete scenario. -/
def relB : Reliever :=
  { reliever_id := "B", throws := "L", rest_days := 3, pitches_last_outing := 10 }

/-- An unavailable variant of candidate A. -/
def relAU : Reliever := { relA with available := false }

/-- An unavailable variant of candidate B. -/
def relBU : Reliever := { relB with available := false }

/-- A trained pipeline that predicts 0 expected runs everywhere. -/
def zeroScorer : FeatureRow → ℚ := fun _ => 0

/-- A loaded model wrapping `zeroScorer`. -/
def readyModel : ExpectedRunsModel := ⟨some zeroScorer⟩

/-- A platoon lookup policy that never grants the advantage. -/
def noPlatoon : String → Int → Int := fun _ _ => 0

/-- An event row matching the §8 scenario (runners on second and third). -/
def exRow : EventRow :=
  { outs := 1, runners := "-23", inning := 8, score_diff := 1, rest_days := 3
    pitches_last_outing := 25, home := 1, park_id := 3, batter_segment := 2 }

/-- An event row whose runners string is not a canonical code. -/
def badRow : EventRow := { exRow with runners := "XYZ" }

/-- The number of occupied bases a base-occupancy code denotes: the count
of non-dash characters. -/
def occupiedBases (s : String) : Int :=
  ((s.toList.filter fun ch => ch ≠ '-').length : Int)

/-! ## Claims -/

/-- C3: For every situation whose `leverage_hint` is present, the
`leverage_proxy` field of the encoded FeatureVector equals that
`leverage_hint`, bypassing the computed formula; only when
`leverage_hint` is absent does `leverage_proxy` equal
`0.7*late_inning + 0.6*close_game + 0.5*(1 if runners_on >= 2 else 0)`. -/
theorem leverage_proxy_rule (platoonOf : String → Int → Int) (s : GameState)
    (c : Reliever) :
    (encode platoonOf s c).leverage_proxy =
      match s.leverage_hint with
      | some h => h
      | none =>
          (0.7 : ℚ) * ((encode platoonOf s c).late_inning : ℚ)
            + 0.6 * ((encode platoonOf s c).close_game : ℚ)
            + 0.5 * (if (encode platoonOf s c).runners_on ≥ 2
                then (1 : ℚ) else 0) := by
  cases hh : s.leverage_hint with
  | some h => simp [encode, hh]
  | none =>
    simp only [encode, hh, featureRow, rowOf]
    ring

/-- C4: For every input event row with a canonical runners code, the
feature encoder follows exactly the derivation rules of the schema:
`outs` clamped to `[0,2]`, `runners_on` the occupied-base count,
`inning` unclamped, `close_game = 1` iff `|score_diff| ≤ 1`,
`late_inning = 1` iff `inning ≥ 7`, `rest_days` clamped to `[0,5]`,
`fatigued = 1` iff `pitches_last_outing > 20`, and `home`, `park_id`,
`batter_segment` passed through. -/
theorem feature_schema_rules (r : EventRow) (p : Int)
    (hr : r.runners ∈ CANONICAL_RUNNERS) :
    (featureRow r p).outs = min (max r.outs 0) 2
    ∧ (featureRow r p).runners_on = occupiedBases r.runners
    ∧ (featureRow r p).inning = r.inning
    ∧ ((featureRow r p).close_game = if |r.score_diff| ≤ 1 then 1 else 0)
    ∧ ((featureRow r p).late_inning = if r.inning ≥ 7 then 1 else 0)
    ∧ (featureRow r p).rest_days = min (max r.rest_days 0) 5
    ∧ ((featureRow r p).fatigued = if r.pitches_last_outing > 20 then 1 else 0)
    ∧ (featureRow r p).platoon = p
    ∧ (featureRow r p).home = r.home
    ∧ (featureRow r p).park_id = r.park_id
    ∧ (featureRow r p).batter_segment = r.batter_segment := by
  refine ⟨rfl, ?_, rfl, rfl, rfl, rfl, rfl, rfl, rfl, rfl, rfl⟩
  show runnersOn r.runners = occupiedBases r.runners
  simp only [CANONICAL_RUNNERS, List.mem_cons, List.not_mem_nil, or_false]
    at hr
  rcases hr with h | h | h | h | h | h | h | h <;> rw [h] <;> decide

/-- C4 witness: the rules evaluated at the §8-style concrete row. -/
theorem feature_schema_rules_witness :
    exRow.runners ∈ CANONICAL_RUNNERS
    ∧ ((featureRow exRow 1).outs = min (max exRow.outs 0) 2
      ∧ (featureRow exRow 1).runners_on = occupiedBases exRow.runners
      ∧ (featureRow exRow 1).inning = exRow.inning
      ∧ ((featureRow exRow 1).close_game =
          if |exRow.score_diff| ≤ 1 then 1 else 0)
      ∧ ((featureRow exRow 1).late_inning = if exRow.inning ≥ 7 then 1 else 0)
      ∧ (featureRow exRow 1).rest_days = min (max exRow.rest_days 0) 5
      ∧ ((featureRow exRow 1).fatigued =
          if exRow.pitches_last_outing > 20 then 1 else 0)
      ∧ (featureRow exRow 1).platoon = 1
      ∧ (featureRow exRow 1).home = exRow.home
      ∧ (featureRow exRow 1).park_id = exRow.park_id
      ∧ (featureRow exRow 1).batter_segment = exRow.batter_segment) :=
  ⟨by decide, feature_schema_rules exRow 1 (by decide)⟩

/-- C9 counterexample: on a table lacking the platoon column,
`feature_df_from_events` does not succeed with platoon defaulted to 0 —
`df.get("platoon", 0)` returns the plain int 0, whose `.astype(int)`
raises AttributeError. -/
theorem platoon_missing_counterexample :
    feature_df_from_events ⟨[exRow], none⟩ =
      Except.error "AttributeError: int object has no attribute astype" :=
  rfl

/-- C9 amended: the batch feature encoder maps every row whose runners
string is not one of the 8 canonical codes to `runners_on = 0` and
succeeds whenever the platoon column is present; but on an event table
lacking a platoon column it fails (AttributeError from
`df.get("platoon", 0).astype(int)`) instead of defaulting platoon to 0. -/
theorem feature_encoder_malformed (rows : List EventRow) (ps : List Int) :
    feature_df_from_events ⟨rows, some ps⟩ =
        Except.ok (List.zipWith featureRow rows ps)
    ∧ (∀ r : EventRow, r.runners ∉ CANONICAL_RUNNERS →
        ∀ p : Int, (featureRow r p).runners_on = 0)
    ∧ feature_df_from_events ⟨rows, none⟩ =
        Except.error "AttributeError: int object has no attribute astype" := by
  refine ⟨rfl, ?_, rfl⟩
  intro r h p
  show runnersOn r.runners = 0
  simp only [CANONICAL_RUNNERS, List.mem_cons, List.not_mem_nil, or_false,
    not_or] at h
  obtain ⟨h1, h2, h3, h4, h5, h6, h7, h8⟩ := h
  simp [runnersOn, RUNNER_MAP, h1, h2, h3, h4, h5, h6, h7, h8]

/-- C9 amended witness: a concrete malformed row maps to `runners_on = 0`,
and the concrete platoon-less table fails. -/
theorem feature_encoder_malformed_witness :
    (featureRow badRow 0).runners_on = 0
    ∧ feature_df_from_events ⟨[badRow], none⟩ =
        Except.error "AttributeError: int object has no attribute astype" :=
  ⟨(feature_encoder_malformed [badRow] [0]).2.1 badRow (by decide) 0,
    (feature_encoder_malformed [badRow] [0]).2.2⟩

/-- C7 counterexample: invoking the Scorer before a model is loaded or
trained fails with the wrapper's own assertion
("Model has not been trained or loaded"), not with `ModelNotReadyError`;
`ExpectedRunsModel` exposes no `is_ready` method. -/
theorem predict_unready_counterexample :
    (ExpectedRunsModel.mk none).predict (featureRow exRow 1) =
        Except.error (.assertionError "Model has not been trained or loaded")
    ∧ (ExpectedRunsModel.mk none).predict (featureRow exRow 1) ≠
        Except.error PyError.modelNotReady := by
  refine ⟨rfl, ?_⟩
  simp [ExpectedRunsModel.predict]

/-- C7 amended: if the Scorer is invoked before a model has been loaded
or trained (`pipe` is `None`), scoring fails — with the `assert`
failure "Model has not been trained or loaded" raised by `predict`
itself, not with a `ModelNotReadyError`, and without any `is_ready`
short-circuit (the class defines no such method). -/
theorem predict_unready (m : ExpectedRunsModel) (x : FeatureRow)
    (h : m.pipe = none) :
    m.predict x =
      Except.error (.assertionError "Model has not been trained or loaded") := by
  simp [ExpectedRunsModel.predict, h]

/-- C7 amended witness: the unloaded model at a concrete feature row. -/
theorem predict_unready_witness :
    (ExpectedRunsModel.mk none).predict (featureRow exRow 0) =
      Except.error (.assertionError "Model has not been trained or loaded") :=
  predict_unready (ExpectedRunsModel.mk none) (featureRow exRow 0) rfl

/-- C10: the serving layer rejects, at schema validation and before the
engine is invoked, every request whose game state has `inning > 12` or
whose candidate has `rest_days > 5` or `pitches_last_outing > 60`. -/
theorem schema_bounds_enforced (platoonOf : String → Int → Int)
    (m : ExpectedRunsModel) (st : GameStateRaw) (bp : List RelieverRaw)
    (h : 12 < st.inning
      ∨ ∃ r ∈ bp, 5 < r.rest_days ∨ 60 < r.pitches_last_outing) :
    RecommendIn.validate st bp = false
    ∧ handleRecommend platoonOf m st bp = Except.error PyError.validationError := by
  have hv : RecommendIn.validate st bp = false := by
    rcases h with h | ⟨r, hmem, hr⟩
    · have : ¬ (st.inning ≤ 12) := by omega
      simp [RecommendIn.validate, GameStateIn.validate, this]
    · have hall : bp.all RelieverIn.validate = false := by
        rw [List.all_eq_false]
        refine ⟨r, hmem, ?_⟩
        rcases hr with hr | hr
        · have : ¬ (r.rest_days ≤ 5) := by omega
          simp [RelieverIn.validate, this]
        · have : ¬ (r.pitches_last_outing ≤ 60) := by omega
          simp [RelieverIn.validate, this]
      simp [RecommendIn.validate, hall]
  exact ⟨hv, by simp [handleRecommend, hv]⟩

/-- C10 witness: a request with a 13th-inning game state is rejected. -/
theorem schema_bounds_enforced_witness :
    RecommendIn.validate
        { outs := 1, runners := "-2-", inning := 13, score_diff := 1
          home := true, park_id := 3, batter_segment := 2 } [] = false
    ∧ handleRecommend noPlatoon (ExpectedRunsModel.mk none)
        { outs := 1, runners := "-2-", inning := 13, score_diff := 1
          home := true, park_id := 3, batter_segment := 2 } [] =
        Except.error PyError.validationError :=
  schema_bounds_enforced noPlatoon (ExpectedRunsModel.mk none)
    { outs := 1, runners := "-2-", inning := 13, score_diff := 1
      home := true, park_id := 3, batter_segment := 2 } []
    (Or.inl (by decide))

/-- `rankLe` is reflexive. -/
theorem rankLe_refl (a : ScoredCandidate) : rankLe a a :=
  Or.inr ⟨rfl, Or.inr ⟨rfl, le_refl _⟩⟩

/-- The head of a `rankLe`-sorted list is `rankLe` every element. -/
theorem headD_rankLe_of_sorted (l : List ScoredCandidate)
    (hs : List.Sorted rankLe l) : ∀ x ∈ l, rankLe (l.headD default) x := by
  cases l with
  | nil => intro x hx; simp at hx
  | cons a t =>
    intro x hx
    rw [List.headD_cons]
    rcases List.mem_cons.mp hx with rfl | hx
    · exact rankLe_refl x
    · exact (List.sorted_cons.mp hs).1 x hx

/-- Unfolding of `recommend` on a non-empty roster and a ready model. -/
theorem recommend_cons_eq (platoonOf : String → Int → Int)
    (m : ExpectedRunsModel) (s : GameState) (a : Reliever)
    (t : List Reliever) (f : FeatureRow → ℚ) (hm : m.pipe = some f) :
    recommend platoonOf m s (a :: t) =
      Except.ok
        { candidates :=
            List.insertionSort rankLe
              ((a :: t).map (scoreCandidate platoonOf f s))
          recommendation :=
            (List.insertionSort rankLe
              ((a :: t).map (scoreCandidate platoonOf f s))).headD default
          all_unavailable := (a :: t).all fun c => !c.available
          state := s } := by
  simp [recommend, recommendAux, hm]

/-- C1: For every situation and every non-empty candidate sequence (and
ready Scorer), the candidate list in the RecommendationResult returned
by `recommend` is sorted ascending by penalized score with ties broken
by more `rest_days` first and then lexicographically smaller identifier
(`rankLe`, a total deterministic order); the list is a permutation of
the scored candidates; and the selected recommendation is the head of
that sorted sequence (hence `rankLe` every candidate). -/
theorem recommend_ranking_sorted (platoonOf : String → Int → Int)
    (m : ExpectedRunsModel) (s : GameState) (cs : List Reliever)
    (f : FeatureRow → ℚ) (hne : cs ≠ []) (hm : m.pipe = some f) :
    ∃ res, recommend platoonOf m s cs = Except.ok res
      ∧ List.Sorted rankLe res.candidates
      ∧ res.candidates.Perm (cs.map (scoreCandidate platoonOf f s))
      ∧ res.candidates ≠ []
      ∧ res.recommendation = res.candidates.headD default
      ∧ ∀ x ∈ res.candidates, rankLe res.recommendation x := by
  cases cs with
  | nil => exact absurd rfl hne
  | cons a t =>
    rw [recommend_cons_eq platoonOf m s a t f hm]
    refine ⟨_, rfl, List.sorted_insertionSort rankLe _,
      List.perm_insertionSort rankLe _, ?_, rfl,
      headD_rankLe_of_sorted _ (List.sorted_insertionSort rankLe _)⟩
    have hlen :
        (List.insertionSort rankLe
          ((a :: t).map (scoreCandidate platoonOf f s))).length =
          (a :: t).length := by
      rw [List.length_insertionSort, List.length_map]
    intro h0
    have h0' :
        List.insertionSort rankLe
          ((a :: t).map (scoreCandidate platoonOf f s)) = [] := h0
    rw [h0'] at hlen
    simp at hlen

/-- C1 witness: the §8 roster under the zero scorer. -/
theorem recommend_ranking_sorted_witness :
    ∃ res, recommend noPlatoon readyModel exState [relA, relB] = Except.ok res
      ∧ List.Sorted rankLe res.candidates
      ∧ res.candidates.Perm
          ([relA, relB].map (scoreCandidate noPlatoon zeroScorer exState))
      ∧ res.candidates ≠ []
      ∧ res.recommendation = res.candidates.headD default
      ∧ ∀ x ∈ res.candidates, rankLe res.recommendation x :=
  recommend_ranking_sorted noPlatoon readyModel exState [relA, relB]
    zeroScorer (by decide) rfl

/-- C2 counterexample: with an extreme raw-score gap the LARGE_PENALTY
does not dominate — an available candidate scoring 2000 raw runs is
penalized above an unavailable one scoring 0, so the claim's universal
quantification over all raw scores fails. -/
theorem unavailable_dominates_counterexample :
    ¬ ((applyPenalty 0 relBU).1 > (applyPenalty 2000 relA).1) := by
  norm_num [applyPenalty, relA, relB, relBU, overusedRule,
    LARGE_PENALTY, OVERUSE_THRESHOLD, OVERUSE_PENALTY]

/-- C2 amended: for every available candidate A and unavailable
candidate B, whenever the raw-score gap `rawA - rawB` is smaller than
`LARGE_PENALTY - OVERUSE_PENALTY`, the penalized score of B is strictly
greater than the penalized score of A — the LARGE_PENALTY dominates the
other additive penalty, but not an arbitrarily large raw-score gap. -/
theorem unavailable_dominates (rawA rawB : ℚ) (A B : Reliever)
    (hA : A.available = true) (hB : B.available = false)
    (hgap : rawA - rawB < LARGE_PENALTY - OVERUSE_PENALTY) :
    (applyPenalty rawB B).1 > (applyPenalty rawA A).1 := by
  have hgap' : rawA - rawB < 1000 - 1/2 := by
    simpa [LARGE_PENALTY, OVERUSE_PENALTY] using hgap
  cases hovA : overusedRule A <;> cases hovB : overusedRule B <;>
    simp [applyPenalty, hA, hB, hovA, hovB, LARGE_PENALTY, OVERUSE_PENALTY] <;>
    linarith

/-- C2 amended witness: available A (raw 1) against unavailable B
(raw 2). -/
theorem unavailable_dominates_witness :
    (applyPenalty 2 relBU).1 > (applyPenalty 1 relA).1 :=
  unavailable_dominates 1 2 relA relBU rfl rfl
    (by norm_num [LARGE_PENALTY, OVERUSE_PENALTY])

/-- C5: for every situation (and any model state), `recommend` with an
empty candidate sequence fails with `EmptyRosterError`, and the number
of Scorer invocations performed is zero. -/
theorem empty_roster_rejected (platoonOf : String → Int → Int)
    (m : ExpectedRunsModel) (s : GameState) :
    recommend platoonOf m s [] = Except.error PyError.emptyRoster
    ∧ (recommendAux platoonOf m s []).2 = 0 :=
  ⟨rfl, rfl⟩

/-- C6: for every non-empty request (and ready Scorer), `recommend`
returns the head of the ranking as the selected recommendation, and the
result's `all_unavailable` flag is set exactly when every candidate is
unavailable. -/
theorem all_unavailable_flag (platoonOf : String → Int → Int)
    (m : ExpectedRunsModel) (s : GameState) (cs : List Reliever)
    (f : FeatureRow → ℚ) (hne : cs ≠ []) (hm : m.pipe = some f) :
    ∃ res, recommend platoonOf m s cs = Except.ok res
      ∧ (res.all_unavailable = true ↔ ∀ c ∈ cs, c.available = false)
      ∧ res.candidates ≠ []
      ∧ res.recommendation = res.candidates.headD default := by
  cases cs with
  | nil => exact absurd rfl hne
  | cons a t =>
    rw [recommend_cons_eq platoonOf m s a t f hm]
    refine ⟨_, rfl, ?_, ?_, rfl⟩
    · simp [List.all_eq_true]
    · have hlen :
          (List.insertionSort rankLe
            ((a :: t).map (scoreCandidate platoonOf f s))).length =
            (a :: t).length := by
        rw [List.length_insertionSort, List.length_map]
      intro h0
      have h0' :
          List.insertionSort rankLe
            ((a :: t).map (scoreCandidate platoonOf f s)) = [] := h0
      rw [h0'] at hlen
      simp at hlen

/-- C6 witness: a roster in which every candidate is unavailable. -/
theorem all_unavailable_flag_witness :
    ∃ res, recommend noPlatoon readyModel exState [relAU, relBU] =
        Except.ok res
      ∧ (res.all_unavailable = true ↔
          ∀ c ∈ [relAU, relBU], c.available = false)
      ∧ res.candidates ≠ []
      ∧ res.recommendation = res.candidates.headD default :=
  all_unavailable_flag noPlatoon readyModel exState [relAU, relBU]
    zeroScorer (by decide) rfl

/-- C8: `recommend` and the feature encoding are deterministic — two
calls with identical inputs and an unchanged Scorer yield identical
results, and the encoder applied twice to the same
(situation, candidate) pair produces an identical FeatureVector (the
embedding is a pure function of its arguments; the source consults no
time, randomness or other ambient state). -/
theorem recommend_deterministic (platoonOf : String → Int → Int)
    (m : ExpectedRunsModel) (s₁ s₂ : GameState) (cs₁ cs₂ : List Reliever)
    (c₁ c₂ : Reliever) (hs : s₁ = s₂) (hcs : cs₁ = cs₂) (hc : c₁ = c₂) :
    recommend platoonOf m s₁ cs₁ = recommend platoonOf m s₂ cs₂
    ∧ encode platoonOf s₁ c₁ = encode platoonOf s₂ c₂ := by
  subst hs; subst hcs; subst hc
  exact ⟨rfl, rfl⟩

/-- C8 witness: determinism at the §8 concrete request. -/
theorem recommend_deterministic_witness :
    recommend noPlatoon readyModel exState [relA, relB] =
        recommend noPlatoon readyModel exState [relA, relB]
    ∧ encode noPlatoon exState relA = encode noPlatoon exState relA :=
  recommend_deterministic noPlatoon readyModel exState exState
    [relA, relB] [relA, relB] relA relA rfl rfl rfl

end BMS
